import Mathlib

/-!
Verification of the lightning-flash image task library against its
natural-language specification.  The Python source is shallowly embedded:
pure functions become Lean functions, Python exceptions become an explicit
`Except` result, warnings and the sequence of calls made to a wrapped
factory are recorded explicitly in the return value.
-/

namespace Flash

/-- A Python exception, as far as the embedded code distinguishes them:
`urlError` models `urllib.error.URLError` (the class the fallback wrapper
catches); every other exception is `other` with its class name and message. -/
inductive PyExc where
  | urlError (msg : String)
  | other (cls : String) (msg : String)
deriving DecidableEq, Repr

/-- Whether an exception is caught by `except urllib.error.URLError`. -/
def PyExc.isURLError : PyExc → Bool
  | .urlError _ => true
  | .other _ _ => false

/-- The observable outcome of one call to a wrapped factory:
the returned value or propagated exception, the number of
`rank_zero_warn` warnings emitted, and the list of `pretrained` values
passed to the wrapped factory, in call order. -/
structure WrapOutcome (α : Type) where
  result : Except PyExc α
  warnings : Nat
  calls : List Bool
deriving Repr

/-- Embedding of `catch_url_error` (src/flash/image/backbones.py):
```
def wrapper(*args, pretrained=False, **kwargs):
    try:
        return fn(*args, pretrained=pretrained, **kwargs)
    except urllib.error.URLError:
        result = fn(*args, pretrained=False, **kwargs)
        rank_zero_warn("Failed to download pretrained weights ...", UserWarning)
        return result
```
The factory `fn` is modelled by its behaviour on the `pretrained` flag:
it either returns a value or raises an exception.  The warning is emitted
after the fallback call returns, so a fallback that itself raises emits
no warning. -/
def catch_url_error {α : Type} (fn : Bool → Except PyExc α) (pretrained : Bool) :
    WrapOutcome α :=
  match fn pretrained with
  | .ok v => ⟨.ok v, 0, [pretrained]⟩
  | .error e =>
      if e.isURLError then
        match fn false with
        | .ok v => ⟨.ok v, 1, [pretrained, false]⟩
        | .error e2 => ⟨.error e2, 0, [pretrained, false]⟩
      else ⟨.error e, 0, [pretrained]⟩

/-- The default value of `pretrained` in the signature of the wrapper
produced by `catch_url_error`: `def wrapper(*args, pretrained=False, **kwargs)`. -/
def catch_url_error_pretrained_default : Bool := false

/-- The default value of `pretrained` in the signature of `_fn_resnet`
(src/flash/image/classification/backbones.py):
`def _fn_resnet(model_name: str, pretrained: bool = True)`. -/
def fn_resnet_pretrained_default : Bool := true

/-- The default value of `pretrained` in the signature of `_fn_resnet_fpn`
(src/flash/image/backbones.py): `pretrained: bool = True`. -/
def fn_resnet_fpn_pretrained_default : Bool := true

/-- A concrete factory mirroring the repository's own test
`raise_error_if_pretrained`: raises `URLError` exactly when
`pretrained=True`, returns a value otherwise. -/
def raise_error_if_pretrained : Bool → Except PyExc Nat :=
  fun pretrained => if pretrained then .error (.urlError "Test error") else .ok 0

/-- C1: For every factory `f` that raises a `URLError` exactly when called
with `pretrained=True` and returns a value when called with
`pretrained=False`, calling `catch_url_error f` with `pretrained=True`
returns exactly the value `f` produces for `pretrained=False` and emits
exactly one warning. -/
theorem catch_url_error_fallback {α : Type} (fn : Bool → Except PyExc α)
    (v : α) (msg : String)
    (htrue : fn true = .error (.urlError msg)) (hfalse : fn false = .ok v) :
    (catch_url_error fn true).result = .ok v ∧
      (catch_url_error fn true).warnings = 1 := by
  unfold catch_url_error
  rw [htrue, hfalse]
  exact ⟨rfl, rfl⟩

/-- Witness for C1 at the repository test's own factory. -/
theorem catch_url_error_fallback_witness :
    (catch_url_error raise_error_if_pretrained true).result = .ok 0 ∧
      (catch_url_error raise_error_if_pretrained true).warnings = 1 :=
  catch_url_error_fallback raise_error_if_pretrained 0 "Test error" rfl rfl

/-- C6: if the factory raises an exception that is not a `URLError`, the
wrapped factory propagates that same exception unchanged, performs no
fallback retry (the factory is called exactly once, with the requested
`pretrained` value), and emits no warning. -/
theorem catch_url_error_propagates {α : Type} (fn : Bool → Except PyExc α)
    (p : Bool) (e : PyExc) (hne : e.isURLError = false) (h : fn p = .error e) :
    catch_url_error fn p = ⟨.error e, 0, [p]⟩ := by
  unfold catch_url_error
  rw [h]
  dsimp only
  rw [hne]
  rfl

/-- Witness for C6: a `ValueError`-raising factory propagates unchanged. -/
theorem catch_url_error_propagates_witness :
    catch_url_error (α := Nat) (fun _ => .error (.other "ValueError" "bad"))
        true = ⟨.error (.other "ValueError" "bad"), 0, [true]⟩ :=
  catch_url_error_propagates (fun _ => .error (.other "ValueError" "bad"))
    true (.other "ValueError" "bad") rfl rfl

/-- C10: if the single fallback retry with `pretrained=False` itself raises
any exception, the wrapped factory propagates that exception and emits no
warning: the warning is only emitted after the fallback call returns. -/
theorem catch_url_error_fallback_raises {α : Type} (fn : Bool → Except PyExc α)
    (p : Bool) (e1 e2 : PyExc) (h1 : fn p = .error e1)
    (hurl : e1.isURLError = true) (h2 : fn false = .error e2) :
    catch_url_error fn p = ⟨.error e2, 0, [p, false]⟩ := by
  unfold catch_url_error
  rw [h1]
  dsimp only
  rw [hurl, h2]
  rfl

/-- Witness for C10: a factory whose fallback raises a second `URLError`. -/
theorem catch_url_error_fallback_raises_witness :
    catch_url_error (α := Nat) (fun _ => .error (.urlError "down")) true =
      ⟨.error (.urlError "down"), 0, [true, false]⟩ :=
  catch_url_error_fallback_raises (fun _ => .error (.urlError "down"))
    true (.urlError "down") (.urlError "down") rfl rfl rfl

/-- C9: the wrapper's own default for `pretrained` is `False`, overriding
the wrapped factories' declared defaults of `True` (`_fn_resnet`,
`_fn_resnet_fpn`): for every factory, calling the wrapper with no
`pretrained` argument makes its first call to the factory with
`pretrained=False`. -/
theorem catch_url_error_default_pretrained_false :
    catch_url_error_pretrained_default = false ∧
      fn_resnet_pretrained_default = true ∧
      fn_resnet_fpn_pretrained_default = true ∧
      ∀ (fn : Bool → Except PyExc Nat),
        (catch_url_error fn catch_url_error_pretrained_default).calls.head? =
          some false := by
  refine ⟨rfl, rfl, rfl, ?_⟩
  intro fn
  unfold catch_url_error catch_url_error_pretrained_default
  cases h : fn false with
  | ok v => rfl
  | error e => cases e <;> rfl

/-!
## Bounding-box reformatting

`ObjectDetectionFiftyOneDataSource._reformat_bbox`
(src/flash/image/detection/data.py) converts a normalized
`[xmin, ymin, width, height]` box into an absolute-pixel
`[xmin, ymin, xmax, ymax]` box plus its area.  The Python code works on
Python floats; the embedding uses exact rationals, the idealized
real-number semantics the specification speaks about.
-/

/-- Embedding of `_reformat_bbox`:
```
xmin *= img_w; ymin *= img_h; box_w *= img_w; box_h *= img_h
xmax = xmin + box_w; ymax = ymin + box_h
return [xmin, ymin, xmax, ymax], box_w * box_h
``` -/
def reformat_bbox (xmin ymin box_w box_h img_w img_h : ℚ) : List ℚ × ℚ :=
  let xmin2 := xmin * img_w
  let ymin2 := ymin * img_h
  let box_w2 := box_w * img_w
  let box_h2 := box_h * img_h
  let xmax := xmin2 + box_w2
  let ymax := ymin2 + box_h2
  ([xmin2, ymin2, xmax, ymax], box_w2 * box_h2)

/-- C2: for W, H > 0 and a normalized box `[x, y, w, h]` with
`0 ≤ x, y`, `x + w ≤ 1` and `y + h ≤ 1`, the reformatted box is
`[x*W, y*H, x*W + w*W, y*H + h*H]` with area `(w*W)*(h*H)`. -/
theorem reformat_bbox_spec (x y w h W H : ℚ)
    (hW : 0 < W) (hH : 0 < H) (hx : 0 ≤ x) (hy : 0 ≤ y)
    (hxw : x + w ≤ 1) (hyh : y + h ≤ 1) :
    reformat_bbox x y w h W H =
      ([x * W, y * H, x * W + w * W, y * H + h * H], (w * W) * (h * H)) :=
  rfl

/-- Witness for C2 at a concrete box and image size. -/
theorem reformat_bbox_spec_witness :
    reformat_bbox (1/4) (1/8) (1/2) (3/4) 100 200 =
      ([1/4 * 100, 1/8 * 200, 1/4 * 100 + 1/2 * 100, 1/8 * 200 + 3/4 * 200],
        (1/2 * 100) * (3/4 * 200)) :=
  reformat_bbox_spec (1/4) (1/8) (1/2) (3/4) 100 200 (by norm_num)
    (by norm_num) (by norm_num) (by norm_num) (by norm_num) (by norm_num)

/-- C4 counterexample: a degenerate normalized box with zero width and
height satisfies all of the claim's hypotheses (`0 ≤ x, y`, `x + w ≤ 1`,
`y + h ≤ 1`, `W, H > 0`) yet the reformatted box has `xmin = xmax` and
`ymin = ymax`, so the claimed strict orderings fail. -/
theorem reformat_bbox_strict_cex :
    (0:ℚ) ≤ 0 ∧ (0:ℚ) + 0 ≤ 1 ∧ (0:ℚ) < 1 ∧
      ¬ ((reformat_bbox 0 0 0 0 1 1).1[0]! < (reformat_bbox 0 0 0 0 1 1).1[2]! ∧
         (reformat_bbox 0 0 0 0 1 1).1[1]! < (reformat_bbox 0 0 0 0 1 1).1[3]!) := by
  refine ⟨le_refl 0, by norm_num, by norm_num, ?_⟩
  intro hcontra
  exact absurd hcontra.1 (by norm_num [reformat_bbox])

/-- C4 amended: under the additional hypotheses `0 < w` and `0 < h`
(a non-degenerate box), the reformatted absolute box satisfies the strict
orderings `xmin < xmax` and `ymin < ymax`. -/
theorem reformat_bbox_strict (x y w h W H : ℚ)
    (hW : 0 < W) (hH : 0 < H) (hx : 0 ≤ x) (hy : 0 ≤ y)
    (hw : 0 < w) (hh : 0 < h) (hxw : x + w ≤ 1) (hyh : y + h ≤ 1) :
    (reformat_bbox x y w h W H).1[0]! < (reformat_bbox x y w h W H).1[2]! ∧
      (reformat_bbox x y w h W H).1[1]! < (reformat_bbox x y w h W H).1[3]! := by
  have hwW : 0 < w * W := mul_pos hw hW
  have hhH : 0 < h * H := mul_pos hh hH
  constructor
  · show x * W < x * W + w * W
    linarith
  · show y * H < y * H + h * H
    linarith

/-- Witness for the amended C4 at a concrete non-degenerate box. -/
theorem reformat_bbox_strict_witness :
    (reformat_bbox (1/4) (1/8) (1/2) (3/4) 100 200).1[0]! <
        (reformat_bbox (1/4) (1/8) (1/2) (3/4) 100 200).1[2]! ∧
      (reformat_bbox (1/4) (1/8) (1/2) (3/4) 100 200).1[1]! <
        (reformat_bbox (1/4) (1/8) (1/2) (3/4) 100 200).1[3]! :=
  reformat_bbox_strict (1/4) (1/8) (1/2) (3/4) 100 200 (by norm_num)
    (by norm_num) (by norm_num) (by norm_num) (by norm_num) (by norm_num)
    (by norm_num) (by norm_num)

/-!
## In-memory-collection adapter: `ObjectDetectionFiftyOneDataSource.load_data`

The FiftyOne `SampleCollection` is modelled as a list of records, each
carrying a filepath, the image dimensions computed by
`data.compute_metadata()`, and the list of detections under the label
field.  In FiftyOne the parallel `data.values(...)` calls return
per-sample lists of equal length drawn from the same `Detections` object,
so one record per detection holding label, bounding box and crowd flag is
the faithful view of the zipped iteration in the source.  The class list
comes from `self._get_classes(data)` (library core, outside the analysed
sources); it is passed as a parameter and the `class_to_idx` dictionary
becomes `List.indexOf`. -/

/-- One FiftyOne detection: label, normalized `[x, y, w, h]` bounding box
(always four components in FiftyOne), optional crowd flag. -/
structure FODetection where
  label : String
  bounding_box : ℚ × ℚ × ℚ × ℚ
  iscrowd : Option Nat
deriving DecidableEq, Repr

/-- One FiftyOne sample, after `compute_metadata()`: filepath, image
width and height, and its detections. -/
structure FOSample where
  filepath : String
  width : ℚ
  height : ℚ
  detections : List FODetection
deriving DecidableEq, Repr

/-- The detection target dictionary built by `load_data`:
`dict(boxes=…, labels=…, image_id=…, area=…, iscrowd=…)`. -/
structure DetTarget where
  boxes : List (List ℚ)
  labels : List Nat
  image_id : Nat
  area : List ℚ
  iscrowd : List Nat
deriving DecidableEq, Repr

/-- One output sample of `load_data`: `dict(input=fp, target=…)`. -/
structure DetOutSample where
  input : String
  target : DetTarget
deriving DecidableEq, Repr

/-- The inner loop of `load_data` over one sample's detections: builds the
four parallel output lists (boxes, labels, area, iscrowd), reformatting
each box with `_reformat_bbox` and defaulting a missing crowd flag to 0. -/
def process_detections (classes : List String) (w h : ℚ) :
    List FODetection → List (List ℚ) × List Nat × List ℚ × List Nat
  | [] => ([], [], [], [])
  | d :: rest =>
      let tail := process_detections classes w h rest
      let reformatted := reformat_bbox d.bounding_box.1 d.bounding_box.2.1
        d.bounding_box.2.2.1 d.bounding_box.2.2.2 w h
      (reformatted.1 :: tail.1, classes.indexOf d.label :: tail.2.1,
        reformatted.2 :: tail.2.2.1, d.iscrowd.getD 0 :: tail.2.2.2)

/-- The outer loop of `load_data`, threading the 1-based `img_id` counter
exactly as the source does (`img_id = 1` before the loop, `img_id += 1`
at the end of each iteration). -/
def load_data_loop (classes : List String) (img_id : Nat) :
    List FOSample → List DetOutSample
  | [] => []
  | s :: rest =>
      let lists := process_detections classes s.width s.height s.detections
      { input := s.filepath,
        target := { boxes := lists.1, labels := lists.2.1, image_id := img_id,
                    area := lists.2.2.1, iscrowd := lists.2.2.2 } } ::
        load_data_loop classes (img_id + 1) rest

/-- Embedding of `ObjectDetectionFiftyOneDataSource.load_data`
(src/flash/image/detection/data.py).  `self._validate` and the
`dataset.num_classes` side channel are outside the claims under study and
do not alter the returned sequence. -/
def load_data (classes : List String) (data : List FOSample) :
    List DetOutSample :=
  load_data_loop classes 1 data

/-- The four output lists built by `process_detections` all have the
length of the detection list they were built from. -/
theorem process_detections_lengths (classes : List String) (w h : ℚ)
    (dets : List FODetection) :
    (process_detections classes w h dets).1.length = dets.length ∧
      (process_detections classes w h dets).2.1.length = dets.length ∧
      (process_detections classes w h dets).2.2.1.length = dets.length ∧
      (process_detections classes w h dets).2.2.2.length = dets.length := by
  induction dets with
  | nil => exact ⟨rfl, rfl, rfl, rfl⟩
  | cons d rest ih =>
      simp only [process_detections, List.length_cons]
      exact ⟨by rw [ih.1], by rw [ih.2.1], by rw [ih.2.2.1], by rw [ih.2.2.2]⟩

/-- C5: every sample produced by `load_data` has a detection target whose
four sequences are of equal length:
`len(boxes) == len(labels) == len(area) == len(iscrowd)`. -/
theorem load_data_target_lengths (classes : List String)
    (data : List FOSample) (out : DetOutSample)
    (hmem : out ∈ load_data classes data) :
    out.target.boxes.length = out.target.labels.length ∧
      out.target.labels.length = out.target.area.length ∧
      out.target.area.length = out.target.iscrowd.length := by
  unfold load_data at hmem
  revert hmem
  generalize 1 = start
  induction data generalizing start with
  | nil => intro hmem; cases hmem
  | cons s rest ih =>
      intro hmem
      rcases List.mem_cons.mp hmem with heq | htail
      · subst heq
        have hl := process_detections_lengths classes s.width s.height
          s.detections
        exact ⟨by rw [hl.1, hl.2.1], by rw [hl.2.1, hl.2.2.1],
          by rw [hl.2.2.1, hl.2.2.2]⟩
      · exact ih (start + 1) htail

/-- A concrete two-sample collection used as witness input. -/
def foDataEx : List FOSample :=
  [⟨"a.png", 100, 200, [⟨"cat", (0, 0, 1/2, 1/2), none⟩,
      ⟨"dog", (1/4, 1/4, 1/4, 1/2), some 1⟩]⟩,
   ⟨"b.png", 50, 50, [⟨"dog", (0, 0, 1, 1), none⟩]⟩]

/-- The first output sample of `load_data` on the concrete collection. -/
def detOutEx : DetOutSample :=
  (load_data ["cat", "dog"] foDataEx).head (by decide)

/-- Witness for C5 on a concrete collection. -/
theorem load_data_target_lengths_witness :
    detOutEx.target.boxes.length = detOutEx.target.labels.length ∧
      detOutEx.target.labels.length = detOutEx.target.area.length ∧
      detOutEx.target.area.length = detOutEx.target.iscrowd.length :=
  load_data_target_lengths ["cat", "dog"] foDataEx detOutEx
    (List.head_mem (by decide))

/-- The `image_id` of the element at index `i` of `load_data_loop`
started at `start` is `start + i`. -/
theorem load_data_loop_image_id (classes : List String)
    (data : List FOSample) (start i : Nat)
    (h : i < (load_data_loop classes start data).length) :
    ((load_data_loop classes start data).get ⟨i, h⟩).target.image_id =
      start + i := by
  induction data generalizing start i with
  | nil => cases h
  | cons s rest ih =>
      cases i with
      | zero => rfl
      | succ j =>
          have hj : j < (load_data_loop classes (start + 1) rest).length := by
            simpa [load_data_loop] using h
          have := ih (start + 1) j hj
          simpa [load_data_loop, Nat.add_assoc, Nat.add_comm 1 j] using this

/-- C7: `load_data` assigns `image_id` as a 1-based sequential counter
over the iteration order: the sample at 0-based position `i` of the
returned sequence has `target.image_id = i + 1`. -/
theorem load_data_image_id (classes : List String) (data : List FOSample)
    (i : Nat) (h : i < (load_data classes data).length) :
    ((load_data classes data).get ⟨i, h⟩).target.image_id = i + 1 := by
  unfold load_data
  rw [load_data_loop_image_id classes data 1 i h]
  exact Nat.add_comm 1 i

/-- Witness for C7 at index 1 of the concrete collection. -/
theorem load_data_image_id_witness :
    ((load_data ["cat", "dog"] foDataEx).get ⟨1, by decide⟩).target.image_id
      = 1 + 1 :=
  load_data_image_id ["cat", "dog"] foDataEx 1 (by decide)

/-!
## Sample loading: `load_sample`

Two variants live in the analysed sources:
`ObjectDetectionFiftyOneDataSource.load_sample`
(src/flash/image/detection/data.py) and
`ImageClassificationPathsDataSource.load_sample`
(src/flash/image/classification/data.py).  Both pass the sample's INPUT
value to torchvision's `default_loader`.  The INPUT slot of a sample is
dynamically typed in Python: a file path before loading, a decoded PIL
image afterwards; `Datum` is that sum.  The filesystem is a parameter
`fs` mapping each path to the image decoded from it. -/

/-- A decoded PIL image: its pixel content and its natural dimensions
(`img.size` in PIL is `(width, height)`). -/
structure PILImage where
  content : String
  width : Nat
  height : Nat
deriving DecidableEq, Repr

/-- The dynamically-typed value held in a sample's INPUT slot. -/
inductive Datum where
  | path (p : String)
  | image (img : PILImage)
deriving DecidableEq, Repr

/-- The METADATA entry written by the detection `load_sample`:
`{"filepath": filepath, "size": (h, w)}`.  `filepath` holds whatever was
in INPUT when `load_sample` ran. -/
structure SampleMetadata where
  filepath : Datum
  size : Nat × Nat
deriving DecidableEq, Repr

/-- A detection sample dict as seen by `load_sample`: INPUT, TARGET, and
an optional METADATA entry (absent until a loader stage adds it). -/
structure DetSample where
  input : Datum
  target : DetTarget
  metadata : Option SampleMetadata
deriving DecidableEq, Repr

/-- A classification sample dict: INPUT, TARGET (a class index), and an
optional METADATA entry. -/
structure ClsSample where
  input : Datum
  target : Nat
  metadata : Option SampleMetadata
deriving DecidableEq, Repr

/-- torchvision's `default_loader` (external collaborator): decodes the
file at the given path.  Applied to a value that is not a path — such as
an already-decoded PIL image — Python's `open()` inside `pil_loader`
raises a `TypeError`. -/
def default_loader (fs : String → PILImage) : Datum → Except PyExc PILImage
  | .path p => .ok (fs p)
  | .image _ => .error (.other "TypeError"
      "expected str, bytes or os.PathLike object, not Image")

/-- Embedding of `ObjectDetectionFiftyOneDataSource.load_sample`:
```
filepath = sample[DefaultDataKeys.INPUT]
img = default_loader(filepath)
sample[DefaultDataKeys.INPUT] = img
w, h = img.size  # WxH
sample[DefaultDataKeys.METADATA] = {"filepath": filepath, "size": (h, w)}
return sample
``` -/
def ObjectDetectionFiftyOneDataSource.load_sample (fs : String → PILImage)
    (sample : DetSample) : Except PyExc DetSample :=
  let filepath := sample.input
  match default_loader fs filepath with
  | .error e => .error e
  | .ok img =>
      .ok { sample with
            input := .image img,
            metadata := some ⟨filepath, (img.height, img.width)⟩ }

/-- Embedding of `ImageClassificationPathsDataSource.load_sample`:
```
sample[DefaultDataKeys.INPUT] = default_loader(sample[DefaultDataKeys.INPUT])
return sample
``` -/
def ImageClassificationPathsDataSource.load_sample (fs : String → PILImage)
    (sample : ClsSample) : Except PyExc ClsSample :=
  match default_loader fs sample.input with
  | .error e => .error e
  | .ok img => .ok { sample with input := .image img }

/-- A concrete filesystem: every path decodes to one fixed 4x3 image. -/
def fsEx : String → PILImage := fun _ => ⟨"pixels", 4, 3⟩

/-- A concrete unloaded detection sample. -/
def detSampleEx : DetSample := ⟨.path "a.png", ⟨[], [], 1, [], []⟩, none⟩

/-- A concrete unloaded classification sample. -/
def clsSampleEx : ClsSample := ⟨.path "a.png", 0, none⟩

/-- C3 counterexample: applying the detection `load_sample` a second time
to the already-loaded result of a first call does not reproduce the first
call's result — the second call raises instead, because the loader
rejects the already-decoded INPUT. -/
theorem load_sample_idempotent_cex :
    (ObjectDetectionFiftyOneDataSource.load_sample fsEx detSampleEx).bind
        (ObjectDetectionFiftyOneDataSource.load_sample fsEx) ≠
      ObjectDetectionFiftyOneDataSource.load_sample fsEx detSampleEx := by
  intro h
  exact absurd (congrArg Except.isOk h) (by decide)

/-- C3 amended: `load_sample` is not idempotent.  For every sample whose
INPUT holds a file path, the first application (of either variant)
succeeds, and a second application to the first call's result fails with
an error rather than returning that result unchanged. -/
theorem load_sample_not_idempotent (fs : String → PILImage)
    (ds : DetSample) (cs : ClsSample) (pd pc : String)
    (hd : ds.input = .path pd) (hc : cs.input = .path pc) :
    (ObjectDetectionFiftyOneDataSource.load_sample fs ds).isOk = true ∧
      ((ObjectDetectionFiftyOneDataSource.load_sample fs ds).bind
        (ObjectDetectionFiftyOneDataSource.load_sample fs)).isOk = false ∧
      (ImageClassificationPathsDataSource.load_sample fs cs).isOk = true ∧
      ((ImageClassificationPathsDataSource.load_sample fs cs).bind
        (ImageClassificationPathsDataSource.load_sample fs)).isOk = false := by
  obtain ⟨di, dt, dm⟩ := ds
  obtain ⟨ci, ct, cm⟩ := cs
  simp only at hd hc
  subst hd
  subst hc
  exact ⟨rfl, rfl, rfl, rfl⟩

/-- Witness for the amended C3 at concrete samples. -/
theorem load_sample_not_idempotent_witness :
    (ObjectDetectionFiftyOneDataSource.load_sample fsEx detSampleEx).isOk
        = true ∧
      ((ObjectDetectionFiftyOneDataSource.load_sample fsEx detSampleEx).bind
        (ObjectDetectionFiftyOneDataSource.load_sample fsEx)).isOk = false ∧
      (ImageClassificationPathsDataSource.load_sample fsEx clsSampleEx).isOk
        = true ∧
      ((ImageClassificationPathsDataSource.load_sample fsEx clsSampleEx).bind
        (ImageClassificationPathsDataSource.load_sample fsEx)).isOk = false :=
  load_sample_not_idempotent fsEx detSampleEx clsSampleEx "a.png" "a.png"
    rfl rfl

/-- The classification sample after loading: INPUT decoded, METADATA
still absent. -/
def clsLoadedEx : ClsSample := ⟨.image ⟨"pixels", 4, 3⟩, 0, none⟩

/-- C8 counterexample: the classification paths variant's `load_sample`
replaces INPUT with the decoded image but does not populate METADATA —
the returned sample's METADATA is still absent. -/
theorem load_sample_metadata_cex :
    ImageClassificationPathsDataSource.load_sample fsEx clsSampleEx =
        .ok clsLoadedEx ∧
      clsLoadedEx.metadata = none :=
  ⟨rfl, rfl⟩

/-- C8 amended: for a sample whose INPUT holds a file path, the detection
variant's `load_sample` replaces INPUT with the decoded image and
populates METADATA with the original path and the image's natural
dimensions, while the classification paths variant replaces INPUT with
the decoded image and leaves METADATA exactly as it was. -/
theorem load_sample_loads_input (fs : String → PILImage)
    (ds : DetSample) (cs : ClsSample) (pd pc : String)
    (hd : ds.input = .path pd) (hc : cs.input = .path pc) :
    ObjectDetectionFiftyOneDataSource.load_sample fs ds =
        .ok { ds with
              input := .image (fs pd),
              metadata := some ⟨.path pd, ((fs pd).height, (fs pd).width)⟩ } ∧
      ImageClassificationPathsDataSource.load_sample fs cs =
        .ok { cs with input := .image (fs pc) } := by
  obtain ⟨di, dt, dm⟩ := ds
  obtain ⟨ci, ct, cm⟩ := cs
  simp only at hd hc
  subst hd
  subst hc
  exact ⟨rfl, rfl⟩

/-- Witness for the amended C8 at concrete samples. -/
theorem load_sample_loads_input_witness :
    ObjectDetectionFiftyOneDataSource.load_sample fsEx detSampleEx =
        .ok { detSampleEx with
              input := .image (fsEx "a.png"),
              metadata := some ⟨.path "a.png",
                ((fsEx "a.png").height, (fsEx "a.png").width)⟩ } ∧
      ImageClassificationPathsDataSource.load_sample fsEx clsSampleEx =
        .ok { clsSampleEx with input := .image (fsEx "a.png") } :=
  load_sample_loads_input fsEx detSampleEx clsSampleEx "a.png" "a.png"
    rfl rfl

end Flash
